import Mathlib

/-!
Verification of the short-horizon price forecasting engine of
`priceguard-crypto` (`src/services/ml_model.py`, class `PricePredictionModel`).

The embedding models:
  * price observations as records with a rational timestamp (an instant
    measured in days) and a rational price (exact stand-in for float64);
  * `prepare_features` (sorting by timestamp, day numbers, the rolling
    7-window mean, first differences with the leading NaN filled by 0, and
    the rolling 7-window sample standard deviation with the one-point NaN
    filled by 0);
  * the train/evaluate split of `train` (chronological, no shuffling,
    `test_size=0.2` meaning a ceil(n/5)-row suffix, only when n > 20);
  * the iterative `predict_next_days` loop, parametric in the fitted
    regressor, which is abstracted as a function from a feature row to a
    predicted price (the sklearn estimators are external library code).

Real-valued quantities appear exactly where the source takes square roots
(`std`, RMSE) or where predictions of the abstract regressor flow.
-/

namespace PriceGuard

/-- A raw price observation: one entry of the `price_history` list of dicts.
The timestamp is an instant in days (rationals allow sub-day granularity);
`pd.to_datetime` parsing is abstracted away. -/
structure PriceObservation where
  timestamp : ℚ
  price : ℚ
deriving DecidableEq

instance : Inhabited PriceObservation := ⟨⟨0, 0⟩⟩

/-- Comparison used by `df.sort_values('timestamp')`: order observations by
timestamp, ascending. -/
def tsLe (a b : PriceObservation) : Prop := a.timestamp ≤ b.timestamp

instance : DecidableRel tsLe := fun a b => inferInstanceAs (Decidable (a.timestamp ≤ b.timestamp))

instance : IsTotal PriceObservation tsLe := ⟨fun a b => le_total a.timestamp b.timestamp⟩

instance : IsTrans PriceObservation tsLe := ⟨fun _ _ _ h h' => le_trans h h'⟩

/-- Sorting step of `prepare_features`: `df = df.sort_values('timestamp')`. -/
def sortObs (l : List PriceObservation) : List PriceObservation :=
  List.insertionSort tsLe l

/-- The price column of the sorted frame. -/
def sortedPrices (l : List PriceObservation) : List ℚ :=
  (sortObs l).map (fun o => o.price)

/-- Rows feeding the rolling statistic at row `i` under pandas
`rolling(window=7, min_periods=1)`: the last `min 7 (i+1)` prices up to and
including row `i`. -/
def window (p : List ℚ) (i : ℕ) : List ℚ :=
  (p.take (i + 1)).drop (i + 1 - 7)

/-- Arithmetic mean of a list of rationals (0 on the empty list, which the
rolling windows never produce thanks to `min_periods=1`). -/
def mean (l : List ℚ) : ℚ := l.sum / l.length

/-- Sample variance with `ddof = 1`, the quantity under the square root of
pandas `Series.std`. The value at a one-element list is irrelevant: there
pandas yields NaN and the code's `fillna(0)` applies. -/
def sampleVar (l : List ℚ) : ℚ :=
  ((l.map (fun x => (x - mean l) ^ 2)).sum) / ((l.length : ℚ) - 1)

/-- Rolling standard deviation column
`df['price'].rolling(window=7, min_periods=1).std().fillna(0)`: the sample
standard deviation of the window, with the NaN produced by a one-point
window replaced by 0. -/
noncomputable def rollingStd (p : List ℚ) (i : ℕ) : ℝ :=
  if (window p i).length < 2 then 0 else Real.sqrt ((sampleVar (window p i) : ℝ))

/-- One row of the prepared frame: the original columns plus the derived
feature columns of `prepare_features`. -/
structure FeatureRow where
  timestamp : ℚ
  price : ℚ
  day_number : ℕ
  ma_7 : ℚ
  price_change : ℚ
  volatility : ℝ

instance : Inhabited FeatureRow := ⟨⟨0, 0, 0, 0, 0, 0⟩⟩

/-- Row `i` of the prepared frame (with respect to the sorted order):
`day_number = i`, the rolling mean, the filled first difference, and the
rolling standard deviation. -/
noncomputable def featureRow (l : List PriceObservation) (i : ℕ) : FeatureRow :=
  { timestamp := ((sortObs l).getD i default).timestamp
    price := (sortedPrices l).getD i 0
    day_number := i
    ma_7 := mean (window (sortedPrices l) i)
    price_change :=
      if i = 0 then 0 else (sortedPrices l).getD i 0 - (sortedPrices l).getD (i - 1) 0
    volatility := rollingStd (sortedPrices l) i }

/-- The full prepared frame, one row per observation. -/
noncomputable def featureTable (l : List PriceObservation) : List FeatureRow :=
  (List.range (sortObs l).length).map (featureRow l)

/-- The feature matrix `X = df[['day_number', 'ma_7', 'price_change',
'volatility']].values`, with the column order fixed by the source. -/
noncomputable def featureMatrix (l : List PriceObservation) : List (List ℝ) :=
  (featureTable l).map (fun r =>
    [(r.day_number : ℝ), (r.ma_7 : ℝ), (r.price_change : ℝ), r.volatility])

/-- The target vector `y = df['price'].values`. -/
noncomputable def targets (l : List PriceObservation) : List ℚ :=
  (featureTable l).map (fun r => r.price)

/-- Error taxonomy of the forecasting core (the source raises `ValueError`
with distinct messages at each of these sites; the spec names them). -/
inductive MLError where
  | insufficientData
  | modelNotTrained
  | unsupportedAlgorithm (selector : String)
deriving DecidableEq

/-- The configured regression algorithm: `LinearRegression()` or
`DecisionTreeRegressor(max_depth=5, random_state=42)`. -/
inductive Algorithm where
  | linear
  | tree (max_depth : ℕ) (random_state : ℕ)
deriving DecidableEq

/-- Evaluation metrics dictionary assembled by `train`. -/
structure EvalMetrics where
  rmse : ℝ
  mae : ℝ
  r2_score : ℝ
  training_samples : ℕ
  test_samples : ℕ

/-- State of a `PricePredictionModel` instance: the selector string, the
configured algorithm, the fitted regressor's prediction function (a
surrogate for the sklearn estimator, irrelevant until `is_trained`), the
`is_trained` flag and the metrics dictionary (`none` models `{}`). -/
structure PricePredictionModel where
  model_type : String
  algo : Algorithm
  predictFn : List ℝ → ℝ
  is_trained : Bool
  metrics : Option EvalMetrics

namespace PricePredictionModel

/-- Constructor `PricePredictionModel.__init__`: `'linear'` configures
`LinearRegression()`, `'tree'` configures
`DecisionTreeRegressor(max_depth=5, random_state=42)`, anything else raises
`ValueError("Unknown model type: ...")` (the spec's
`UnsupportedAlgorithmError`). The fresh instance has `is_trained = False`
and empty metrics; its prediction function is an unused placeholder until
`fit` replaces it. -/
def init (model_type : String) : Except MLError PricePredictionModel :=
  if model_type = "linear" then
    .ok { model_type := model_type, algo := .linear, predictFn := fun _ => 0,
          is_trained := false, metrics := none }
  else if model_type = "tree" then
    .ok { model_type := model_type, algo := .tree 5 42, predictFn := fun _ => 0,
          is_trained := false, metrics := none }
  else
    .error (.unsupportedAlgorithm model_type)

/-- The method `prepare_features`: rejects fewer than 7 observations
(`ValueError("Need at least 7 days of price history")`, the spec's
`InsufficientDataError`), otherwise returns the feature matrix `X`, the
target vector `y` and the prepared frame `df`. -/
noncomputable def prepare_features (price_history : List PriceObservation) :
    Except MLError (List (List ℝ) × List ℚ × List FeatureRow) :=
  if price_history.length < 7 then .error .insufficientData
  else .ok (featureMatrix price_history, targets price_history, featureTable price_history)

/-- Evaluation split of `train`: `train_test_split(X, y, test_size=0.2,
shuffle=False)` when `len(X) > 20` (the test slice is the last
`ceil(len(X)/5)` rows, the train slice the remaining head), otherwise the
full set plays both roles. Returns `(X_train, X_test, y_train, y_test)`. -/
def splitData {α β : Type} (X : List α) (Y : List β) :
    List α × List α × List β × List β :=
  if 20 < X.length then
    let n_test := (X.length + 4) / 5
    let n_train := X.length - n_test
    (X.take n_train, X.drop n_train, Y.take n_train, Y.drop n_train)
  else
    (X, X, Y, Y)

/-- Shape of the abstracted `sklearn` fit step: from the configured
algorithm, a training matrix and training targets, produce the fitted
estimator's prediction function. -/
def Fit : Type := Algorithm → List (List ℝ) → List ℝ → (List ℝ → ℝ)

/-- Mean of a list of reals (used by the error metrics). -/
noncomputable def meanR (l : List ℝ) : ℝ := l.sum / l.length

/-- Metrics computed on the evaluation slice: RMSE, MAE and the coefficient
of determination `1 - SS_res / SS_tot`. -/
noncomputable def computeMetrics (f : List ℝ → ℝ) (X_test : List (List ℝ))
    (y_test : List ℚ) (n_train n_test : ℕ) : EvalMetrics :=
  let y_pred := X_test.map f
  let errs := (y_test.zip y_pred).map (fun p => (p.1 : ℝ) - p.2)
  let ss_res := (errs.map (fun e => e ^ 2)).sum
  let y_bar := meanR (y_test.map (fun q => (q : ℝ)))
  let ss_tot := (y_test.map (fun q => ((q : ℝ) - y_bar) ^ 2)).sum
  { rmse := Real.sqrt (meanR (errs.map (fun e => e ^ 2)))
    mae := meanR (errs.map (fun e => |e|))
    r2_score := 1 - ss_res / ss_tot
    training_samples := n_train
    test_samples := n_test }

/-- The method `train`, parametric in the abstracted fit step: prepares
features (propagating the insufficient-data error with the state
untouched), splits, fits, flips `is_trained`, evaluates, stores and
returns the metrics. -/
noncomputable def train (fitFn : Fit) (m : PricePredictionModel)
    (price_history : List PriceObservation) :
    PricePredictionModel × Except MLError EvalMetrics :=
  match prepare_features price_history with
  | .error e => (m, .error e)
  | .ok (X, y, _df) =>
    match splitData X y with
    | (X_train, X_test, y_train, y_test) =>
      let f := fitFn m.algo X_train (y_train.map (fun q => (q : ℝ)))
      let metrics := computeMetrics f X_test y_test X_train.length X_test.length
      ({ m with predictFn := f, is_trained := true, metrics := some metrics },
       .ok metrics)

/-- One forecast point emitted by `predict_next_days`: the calendar date
(the formatted `last_timestamp + timedelta(days=i)`, modelled as the floor
of that instant in days), the predicted price and the 1-based offset. -/
structure ForecastPoint where
  date : ℤ
  predicted_price : ℝ
  day_offset : ℕ

instance : Inhabited ForecastPoint := ⟨⟨0, 0, 0⟩⟩

/-- Body of the prediction loop of `predict_next_days`: at offset `i` it
assembles the synthetic feature row `[last_day + i, last_ma,
last_price_change, last_volatility]`, predicts, updates the carried moving
average to `(last_ma * 6 + predicted_price) / 7`, emits the point, and
recurses with the incremented offset; `fuel` counts the remaining
iterations of `range(1, days + 1)`. -/
noncomputable def forecastSteps (f : List ℝ → ℝ) (last_day : ℕ)
    (last_price_change : ℚ) (last_volatility : ℝ) (last_timestamp : ℚ)
    (i : ℕ) (last_ma : ℝ) : ℕ → List ForecastPoint
  | 0 => []
  | fuel + 1 =>
    let predicted_price :=
      f [((last_day + i : ℕ) : ℝ), last_ma, (last_price_change : ℝ), last_volatility]
    let new_ma := (last_ma * 6 + predicted_price) / 7
    { date := ⌊last_timestamp + (i : ℚ)⌋
      predicted_price := predicted_price
      day_offset := i } ::
      forecastSteps f last_day last_price_change last_volatility last_timestamp
        (i + 1) new_ma fuel

/-- The method `predict_next_days`: requires `is_trained` (otherwise
`ValueError("Model must be trained before making predictions")`, the
spec's `ModelNotTrainedError`), re-prepares the features, reads the last
row of the frame, and runs the loop for `days` iterations starting at
offset 1 (`range(1, days + 1)` is empty when `days <= 0`). -/
noncomputable def predict_next_days (m : PricePredictionModel)
    (price_history : List PriceObservation) (days : ℤ) :
    Except MLError (List ForecastPoint) :=
  if m.is_trained = false then .error .modelNotTrained
  else
    match prepare_features price_history with
    | .error e => .error e
    | .ok (_X, _y, df) =>
      let last := df.getLastD default
      .ok (forecastSteps m.predictFn last.day_number last.price_change
        last.volatility last.timestamp 1 (last.ma_7 : ℝ) days.toNat)

end PricePredictionModel

/-! ### Specification-side definitions

The following definitions transcribe the spec's own wording (section 4.1 and
4.2 of the specification document) rather than the source, so that the
functional-correctness claims become refinement statements between the two.
-/

/-- Spec wording for the rolling window of row `i`: the inclusive slice
`price[max(0,i-6) .. i]` (natural-number subtraction realises the `max`). -/
def specWindow (p : List ℚ) (i : ℕ) : List ℚ :=
  (p.drop (i - 6)).take (i + 1 - (i - 6))

/-- Spec wording: `moving_avg_7 = mean(price[max(0,i-6)..i])`. -/
def specMovingAvg (p : List ℚ) (i : ℕ) : ℚ := mean (specWindow p i)

/-- Spec wording: `price_delta = price[i] - price[i-1]`, `0.0` at `i = 0`. -/
def specPriceDelta (p : List ℚ) (i : ℕ) : ℚ :=
  if i = 0 then 0 else p.getD i 0 - p.getD (i - 1) 0

/-- Spec wording: `volatility_7 = sample std-dev(price[max(0,i-6)..i])`,
`0.0` when the window has fewer than 2 points. -/
noncomputable def specVolatility (p : List ℚ) (i : ℕ) : ℝ :=
  if (specWindow p i).length < 2 then 0
  else Real.sqrt ((sampleVar (specWindow p i) : ℝ))

/-- Spec wording for the carried moving average of the iterative forecast
(section 4.2, steps 1-3): starting from the last historical `moving_avg_7`,
after predicting step `s + 1` from the synthetic row
`[last_day + (s+1), carried_ma s, last_delta, last_volatility]` the carried
average becomes `(carried_ma s * 6 + predicted) / 7`. -/
noncomputable def specCarriedMa (f : List ℝ → ℝ) (d : ℕ) (delta : ℚ) (V : ℝ)
    (ma0 : ℝ) : ℕ → ℝ
  | 0 => ma0
  | s + 1 =>
    (specCarriedMa f d delta V ma0 s * 6 +
      f [((d + (s + 1) : ℕ) : ℝ), specCarriedMa f d delta V ma0 s, (delta : ℝ), V]) / 7

/-- Spec wording for the price predicted at step `s ≥ 1`: the model applied
to the synthetic row `[last_day + s, carried_ma (s-1), last_delta,
last_volatility]`, in which the delta and volatility entries stay frozen at
their last historical values. -/
noncomputable def specStepPrice (f : List ℝ → ℝ) (d : ℕ) (delta : ℚ) (V : ℝ)
    (ma0 : ℝ) (s : ℕ) : ℝ :=
  f [((d + s : ℕ) : ℝ), specCarriedMa f d delta V ma0 (s - 1), (delta : ℝ), V]

/-! ### Helper lemmas -/

/-- Carried moving average of the loop when entered at offset `i` with value
`ma`: the value in force at the start of iteration `k` (0-based). -/
noncomputable def maFrom (f : List ℝ → ℝ) (d : ℕ) (delta : ℚ) (V : ℝ)
    (i : ℕ) (ma : ℝ) : ℕ → ℝ
  | 0 => ma
  | k + 1 =>
    (maFrom f d delta V i ma k * 6 +
      f [((d + (i + k) : ℕ) : ℝ), maFrom f d delta V i ma k, (delta : ℝ), V]) / 7

theorem length_sortObs (l : List PriceObservation) : (sortObs l).length = l.length :=
  List.length_insertionSort tsLe l

theorem length_sortedPrices (l : List PriceObservation) :
    (sortedPrices l).length = l.length := by
  simp [sortedPrices, length_sortObs]

theorem length_featureTable (l : List PriceObservation) :
    (featureTable l).length = l.length := by
  simp [featureTable, length_sortObs]

theorem window_eq_specWindow (p : List ℚ) (i : ℕ) :
    window p i = specWindow p i := by
  unfold window specWindow
  rw [List.drop_take]
  have h1 : i + 1 - 7 = i - 6 := by omega
  rw [h1]

theorem rollingStd_eq_specVolatility (p : List ℚ) (i : ℕ) :
    rollingStd p i = specVolatility p i := by
  unfold rollingStd specVolatility
  rw [window_eq_specWindow]

theorem getD_map_range {α : Type} (f : ℕ → α) (n i : ℕ) (d : α) (h : i < n) :
    ((List.range n).map f).getD i d = f i := by
  rw [List.getD_eq_getElem?_getD, List.getElem?_map]
  simp [List.getElem?_range h]

theorem map_getD_self (p : List ℚ) :
    (List.range p.length).map (fun i => p.getD i 0) = p := by
  apply List.ext_getElem
  · simp
  · intro i h1 h2
    simp only [List.getElem_map, List.getElem_range]
    exact List.getD_eq_getElem p 0 h2

theorem getLastD_map_range {α : Type} (f : ℕ → α) (n : ℕ) (d : α) (h : 0 < n) :
    ((List.range n).map f).getLastD d = f (n - 1) := by
  obtain ⟨m, rfl⟩ : ∃ m, n = m + 1 := ⟨n - 1, by omega⟩
  rw [List.range_succ, List.map_append]
  simp

theorem featureTable_getD (l : List PriceObservation) (i : ℕ) (h : i < l.length) :
    (featureTable l).getD i default = featureRow l i := by
  unfold featureTable
  exact getD_map_range _ _ _ _ (by rw [length_sortObs]; exact h)

theorem targets_eq_sortedPrices (l : List PriceObservation) :
    targets l = sortedPrices l := by
  unfold targets featureTable
  rw [List.map_map]
  calc (List.range (sortObs l).length).map (fun i => (featureRow l i).price)
      = (List.range (sortedPrices l).length).map (fun i => (sortedPrices l).getD i 0) := by
        rw [show (sortedPrices l).length = (sortObs l).length from by
          simp [sortedPrices]]
        rfl
    _ = sortedPrices l := map_getD_self _

theorem maFrom_shift (f : List ℝ → ℝ) (d : ℕ) (delta : ℚ) (V : ℝ) :
    ∀ (k i : ℕ) (ma : ℝ),
      maFrom f d delta V (i + 1)
        ((ma * 6 + f [((d + i : ℕ) : ℝ), ma, (delta : ℝ), V]) / 7) k
        = maFrom f d delta V i ma (k + 1) := by
  intro k
  induction k with
  | zero =>
    intro i ma
    simp [maFrom]
  | succ k ih =>
    intro i ma
    rw [show k + 1 + 1 = (k + 1) + 1 from rfl]
    unfold maFrom
    rw [ih i ma]
    have : i + 1 + k = i + (k + 1) := by omega
    rw [this]

theorem maFrom_one_eq_specCarriedMa (f : List ℝ → ℝ) (d : ℕ) (delta : ℚ)
    (V : ℝ) (ma0 : ℝ) : ∀ k, maFrom f d delta V 1 ma0 k = specCarriedMa f d delta V ma0 k := by
  intro k
  induction k with
  | zero => simp [maFrom, specCarriedMa]
  | succ k ih =>
    unfold maFrom specCarriedMa
    rw [ih]
    have : 1 + k = k + 1 := by omega
    rw [this]

theorem forecastSteps_eq_map (f : List ℝ → ℝ) (d : ℕ) (delta : ℚ) (V : ℝ)
    (T : ℚ) : ∀ (fuel i : ℕ) (ma : ℝ),
      PricePredictionModel.forecastSteps f d delta V T i ma fuel =
        (List.range fuel).map (fun k =>
          { date := ⌊T + ((i + k : ℕ) : ℚ)⌋
            predicted_price :=
              f [((d + (i + k) : ℕ) : ℝ), maFrom f d delta V i ma k, (delta : ℝ), V]
            day_offset := i + k }) := by
  intro fuel
  induction fuel with
  | zero => intro i ma; simp [PricePredictionModel.forecastSteps]
  | succ fuel ih =>
    intro i ma
    rw [List.range_succ_eq_map, List.map_cons, List.map_map]
    unfold PricePredictionModel.forecastSteps
    have htail :
        PricePredictionModel.forecastSteps f d delta V T (i + 1)
          ((ma * 6 + f [((d + i : ℕ) : ℝ), ma, (delta : ℝ), V]) / 7) fuel =
        (List.range fuel).map
          ((fun k =>
            ({ date := ⌊T + ((i + k : ℕ) : ℚ)⌋
               predicted_price :=
                 f [((d + (i + k) : ℕ) : ℝ), maFrom f d delta V i ma k, (delta : ℝ), V]
               day_offset := i + k } : PricePredictionModel.ForecastPoint)) ∘ Nat.succ) := by
      rw [ih (i + 1) ((ma * 6 + f [((d + i : ℕ) : ℝ), ma, (delta : ℝ), V]) / 7)]
      apply List.map_congr_left
      intro k _
      simp only [Function.comp, Nat.succ_eq_add_one]
      have h1 : i + 1 + k = i + (k + 1) := by omega
      rw [h1, maFrom_shift]
    exact congrArg₂ List.cons rfl htail

theorem mean_replicate (k : ℕ) (P : ℚ) (h : k ≠ 0) :
    mean (List.replicate k P) = P := by
  unfold mean
  rw [List.sum_replicate, List.length_replicate, nsmul_eq_mul]
  exact mul_div_cancel_left₀ P (by exact_mod_cast h)

theorem sampleVar_replicate (k : ℕ) (P : ℚ) :
    sampleVar (List.replicate k P) = 0 := by
  unfold sampleVar
  rcases Nat.eq_zero_or_pos k with hk | hk
  · subst hk; simp
  · rw [mean_replicate k P (by omega), List.map_replicate]
    simp

theorem getD_length_sub_one_eq_getLastD {α : Type} [Inhabited α] (l : List α) :
    l.getD (l.length - 1) default = l.getLastD default := by
  rw [List.getLastD_eq_getLast?, List.getLast?_eq_getElem?, List.getD_eq_getElem?_getD]

theorem featureTable_getLastD (l : List PriceObservation) (h : 0 < l.length) :
    (featureTable l).getLastD default = featureRow l (l.length - 1) := by
  unfold featureTable
  rw [getLastD_map_range _ _ _ (by rw [length_sortObs]; omega), length_sortObs]

theorem lastRow_fields (l : List PriceObservation) (h : 0 < l.length) :
    ((featureTable l).getLastD default).timestamp =
      ((sortObs l).getLastD default).timestamp ∧
    ((featureTable l).getLastD default).day_number = l.length - 1 := by
  rw [featureTable_getLastD l h]
  constructor
  · show ((sortObs l).getD (l.length - 1) default).timestamp = _
    rw [show l.length - 1 = (sortObs l).length - 1 from by rw [length_sortObs],
      getD_length_sub_one_eq_getLastD]
  · rfl

theorem predict_next_days_eq_map (m : PricePredictionModel)
    (hm : m.is_trained = true) (l : List PriceObservation) (h7 : 7 ≤ l.length)
    (days : ℤ) :
    PricePredictionModel.predict_next_days m l days =
      .ok ((List.range days.toNat).map (fun k =>
        { date := ⌊((featureTable l).getLastD default).timestamp + ((1 + k : ℕ) : ℚ)⌋
          predicted_price := m.predictFn
            [((((featureTable l).getLastD default).day_number + (1 + k) : ℕ) : ℝ),
             maFrom m.predictFn ((featureTable l).getLastD default).day_number
               ((featureTable l).getLastD default).price_change
               ((featureTable l).getLastD default).volatility 1
               (((featureTable l).getLastD default).ma_7 : ℝ) k,
             (((featureTable l).getLastD default).price_change : ℝ),
             ((featureTable l).getLastD default).volatility]
          day_offset := 1 + k })) := by
  have hprep : PricePredictionModel.prepare_features l =
      .ok (featureMatrix l, targets l, featureTable l) := by
    unfold PricePredictionModel.prepare_features
    rw [if_neg (by omega)]
  unfold PricePredictionModel.predict_next_days
  rw [hm]
  simp only [hprep]
  rw [forecastSteps_eq_map]
  simp

/-! ### Claim theorems -/

theorem sorted_perm_eq_of_nodup_keys :
    ∀ {l1 l2 : List PriceObservation}, List.Perm l1 l2 →
      List.Sorted tsLe l1 → List.Sorted tsLe l2 →
      (l1.map (fun o => o.timestamp)).Nodup → l1 = l2 := by
  intro l1
  induction l1 with
  | nil =>
    intro l2 hp _ _ _
    exact (hp.symm.eq_nil).symm ▸ rfl
  | cons a t ih =>
    intro l2 hp hs1 hs2 hnd
    cases l2 with
    | nil => exact absurd hp.eq_nil (by simp)
    | cons b t2 =>
      have hndt : (∀ x ∈ t, ¬x.timestamp = a.timestamp) ∧
          (t.map (fun o => o.timestamp)).Nodup := by
        simpa using hnd
      have hab : a = b := by
        by_contra hne
        have ha2 : a ∈ b :: t2 := hp.mem_iff.mp (List.mem_cons_self a t)
        have hat2 : a ∈ t2 := by
          rcases List.mem_cons.mp ha2 with h | h
          · exact absurd h hne
          · exact h
        have hb1 : b ∈ a :: t := hp.symm.mem_iff.mp (List.mem_cons_self b t2)
        have hbt : b ∈ t := by
          rcases List.mem_cons.mp hb1 with h | h
          · exact absurd h.symm hne
          · exact h
        have h1 : a.timestamp ≤ b.timestamp := (List.sorted_cons.mp hs1).1 b hbt
        have h2 : b.timestamp ≤ a.timestamp := (List.sorted_cons.mp hs2).1 a hat2
        have heq : a.timestamp = b.timestamp := le_antisymm h1 h2
        exact hndt.1 b hbt heq.symm
      subst hab
      have hperm : List.Perm t t2 := hp.cons_inv
      have htl := ih hperm (List.sorted_cons.mp hs1).2 (List.sorted_cons.mp hs2).2
        hndt.2
      rw [htl]

/-- Claim C3: on a trained model with at least 7 observations and count
`N ≥ 1`, the iterative forecast's point at step `s` (1-based) carries
exactly the price predicted from the synthetic row
`[last_day + s, carried_ma (s-1), last_price_delta, last_volatility]`,
where `price_delta` and `volatility` stay frozen at the last historical
row's values for every step and the carried moving average obeys
`ma_s = (ma_(s-1) * 6 + predicted_s) / 7`, updated only after predicting —
this is the content of `specStepPrice`/`specCarriedMa`, transcribed from
the spec. -/
theorem claim_C3_iterative_forecast (m : PricePredictionModel)
    (hm : m.is_trained = true) (l : List PriceObservation) (h7 : 7 ≤ l.length)
    (N : ℤ) (_hN : 1 ≤ N) :
    ∃ pts, PricePredictionModel.predict_next_days m l N = .ok pts ∧
      pts.length = N.toNat ∧
      ∀ s, 1 ≤ s → s ≤ N.toNat →
        (pts.getD (s - 1) default).predicted_price =
          specStepPrice m.predictFn
            ((featureTable l).getLastD default).day_number
            ((featureTable l).getLastD default).price_change
            ((featureTable l).getLastD default).volatility
            (((featureTable l).getLastD default).ma_7 : ℝ) s ∧
        (pts.getD (s - 1) default).day_offset = s := by
  refine ⟨_, predict_next_days_eq_map m hm l h7 N, by simp, ?_⟩
  intro s hs1 hs2
  rw [getD_map_range _ _ _ _ (by simp; omega)]
  constructor
  · show m.predictFn _ = _
    unfold specStepPrice
    rw [maFrom_one_eq_specCarriedMa]
    have he : 1 + (s - 1) = s := by omega
    rw [he]
  · show 1 + (s - 1) = s
    omega

/-- Witness for C3: a trained model whose regressor always answers 50, a
7-point history, count 2. -/
theorem claim_C3_iterative_forecast_witness :
    ∃ pts,
      PricePredictionModel.predict_next_days
        { model_type := "linear", algo := .linear, predictFn := fun _ => 50,
          is_trained := true, metrics := none }
        ([⟨0, 100⟩, ⟨1, 101⟩, ⟨2, 99⟩, ⟨3, 102⟩, ⟨4, 104⟩, ⟨5, 103⟩, ⟨6, 105⟩] :
          List PriceObservation) 2 = .ok pts ∧
      pts.length = (2 : ℤ).toNat ∧
      ∀ s, 1 ≤ s → s ≤ (2 : ℤ).toNat →
        (pts.getD (s - 1) default).predicted_price =
          specStepPrice (fun _ => 50)
            ((featureTable
              ([⟨0, 100⟩, ⟨1, 101⟩, ⟨2, 99⟩, ⟨3, 102⟩, ⟨4, 104⟩, ⟨5, 103⟩, ⟨6, 105⟩] :
                List PriceObservation)).getLastD default).day_number
            ((featureTable
              ([⟨0, 100⟩, ⟨1, 101⟩, ⟨2, 99⟩, ⟨3, 102⟩, ⟨4, 104⟩, ⟨5, 103⟩, ⟨6, 105⟩] :
                List PriceObservation)).getLastD default).price_change
            ((featureTable
              ([⟨0, 100⟩, ⟨1, 101⟩, ⟨2, 99⟩, ⟨3, 102⟩, ⟨4, 104⟩, ⟨5, 103⟩, ⟨6, 105⟩] :
                List PriceObservation)).getLastD default).volatility
            (((featureTable
              ([⟨0, 100⟩, ⟨1, 101⟩, ⟨2, 99⟩, ⟨3, 102⟩, ⟨4, 104⟩, ⟨5, 103⟩, ⟨6, 105⟩] :
                List PriceObservation)).getLastD default).ma_7 : ℝ) s ∧
        (pts.getD (s - 1) default).day_offset = s :=
  claim_C3_iterative_forecast
    { model_type := "linear", algo := .linear, predictFn := fun _ => 50,
      is_trained := true, metrics := none } rfl
    [⟨0, 100⟩, ⟨1, 101⟩, ⟨2, 99⟩, ⟨3, 102⟩, ⟨4, 104⟩, ⟨5, 103⟩, ⟨6, 105⟩]
    (by decide) 2 (by decide)

/-- Claim C5: on a trained model with at least 7 observations (last sorted
timestamp `T`) and count `N ≥ 1`, the forecast returns exactly `N` points,
the point at 0-based position `s` having `day_offset = s + 1` and date
`T + (s + 1)` whole days, with both offsets and dates strictly
increasing. -/
theorem claim_C5_forecast_shape (m : PricePredictionModel)
    (hm : m.is_trained = true) (l : List PriceObservation) (h7 : 7 ≤ l.length)
    (N : ℤ) (_hN : 1 ≤ N) :
    ∃ pts, PricePredictionModel.predict_next_days m l N = .ok pts ∧
      pts.length = N.toNat ∧
      (∀ s, s < N.toNat →
        (pts.getD s default).day_offset = s + 1 ∧
        (pts.getD s default).date =
          ⌊((sortObs l).getLastD default).timestamp + ((s + 1 : ℕ) : ℚ)⌋) ∧
      (∀ s, s + 1 < N.toNat →
        (pts.getD s default).day_offset < (pts.getD (s + 1) default).day_offset ∧
        (pts.getD s default).date < (pts.getD (s + 1) default).date) := by
  have hT := (lastRow_fields l (by omega)).1
  refine ⟨_, predict_next_days_eq_map m hm l h7 N, by simp, ?_, ?_⟩
  · intro s hs
    rw [getD_map_range _ _ _ _ (by simpa using hs)]
    refine ⟨by show 1 + s = s + 1; omega, ?_⟩
    show ⌊((featureTable l).getLastD default).timestamp + ((1 + s : ℕ) : ℚ)⌋ = _
    rw [hT, Nat.add_comm 1 s]
  · intro s hs
    rw [getD_map_range _ _ _ _ (by simp; omega),
      getD_map_range _ _ _ _ (by simpa using hs)]
    constructor
    · show 1 + s < 1 + (s + 1)
      omega
    · show ⌊((featureTable l).getLastD default).timestamp + ((1 + s : ℕ) : ℚ)⌋ <
        ⌊((featureTable l).getLastD default).timestamp + ((1 + (s + 1) : ℕ) : ℚ)⌋
      have hc : ((1 + (s + 1) : ℕ) : ℚ) = ((1 + s : ℕ) : ℚ) + 1 := by push_cast; ring
      rw [hc, ← add_assoc, Int.floor_add_one]
      omega

/-- Witness for C5: a trained model answering 0, a 7-point history, count 3. -/
theorem claim_C5_forecast_shape_witness :
    ∃ pts,
      PricePredictionModel.predict_next_days
        { model_type := "linear", algo := .linear, predictFn := fun _ => 0,
          is_trained := true, metrics := none }
        ([⟨0, 100⟩, ⟨1, 101⟩, ⟨2, 99⟩, ⟨3, 102⟩, ⟨4, 104⟩, ⟨5, 103⟩, ⟨6, 105⟩] :
          List PriceObservation) 3 = .ok pts ∧
      pts.length = (3 : ℤ).toNat ∧
      (∀ s, s < (3 : ℤ).toNat →
        (pts.getD s default).day_offset = s + 1 ∧
        (pts.getD s default).date =
          ⌊((sortObs
            ([⟨0, 100⟩, ⟨1, 101⟩, ⟨2, 99⟩, ⟨3, 102⟩, ⟨4, 104⟩, ⟨5, 103⟩, ⟨6, 105⟩] :
              List PriceObservation)).getLastD default).timestamp +
            ((s + 1 : ℕ) : ℚ)⌋) ∧
      (∀ s, s + 1 < (3 : ℤ).toNat →
        (pts.getD s default).day_offset < (pts.getD (s + 1) default).day_offset ∧
        (pts.getD s default).date < (pts.getD (s + 1) default).date) :=
  claim_C5_forecast_shape
    { model_type := "linear", algo := .linear, predictFn := fun _ => 0,
      is_trained := true, metrics := none } rfl
    [⟨0, 100⟩, ⟨1, 101⟩, ⟨2, 99⟩, ⟨3, 102⟩, ⟨4, 104⟩, ⟨5, 103⟩, ⟨6, 105⟩]
    (by decide) 3 (by decide)

/-- Claim C6, counterexample: with a timestamp tie the feature table is not
order-independent. The two 7-element inputs below hold the same multiset of
observations (the first two, which share timestamp 0, are swapped) and both
are already weakly sorted, so the sort leaves each unchanged and the
resulting tables differ already in the price column of row 0. The claim as
stated (identical tables for any two orderings of the same multiset) is
therefore false on the code. -/
theorem claim_C6_counterexample :
    List.Perm
      ([⟨0, 10⟩, ⟨0, 20⟩, ⟨1, 30⟩, ⟨2, 40⟩, ⟨3, 50⟩, ⟨4, 60⟩, ⟨5, 70⟩] :
        List PriceObservation)
      ([⟨0, 20⟩, ⟨0, 10⟩, ⟨1, 30⟩, ⟨2, 40⟩, ⟨3, 50⟩, ⟨4, 60⟩, ⟨5, 70⟩] :
        List PriceObservation) ∧
    featureTable
        ([⟨0, 10⟩, ⟨0, 20⟩, ⟨1, 30⟩, ⟨2, 40⟩, ⟨3, 50⟩, ⟨4, 60⟩, ⟨5, 70⟩] :
          List PriceObservation) ≠
      featureTable
        ([⟨0, 20⟩, ⟨0, 10⟩, ⟨1, 30⟩, ⟨2, 40⟩, ⟨3, 50⟩, ⟨4, 60⟩, ⟨5, 70⟩] :
          List PriceObservation) := by
  constructor
  · exact List.Perm.swap _ _ _
  · intro h
    have h0 := congrArg (fun t => (t.getD 0 default).price) h
    simp only at h0
    rw [featureTable_getD _ 0 (by decide), featureTable_getD _ 0 (by decide)] at h0
    unfold featureRow sortedPrices sortObs at h0
    rw [List.Sorted.insertionSort_eq (by decide),
      List.Sorted.insertionSort_eq (by decide)] at h0
    exact absurd h0 (by decide)

/-- Claim C6, amended: the Feature Builder sorts by timestamp ascending, and
for observation sequences whose timestamps are pairwise distinct, building
the feature table from any two orderings of the same multiset of
observations yields the identical sorted result. (With tied timestamps the
source's sort order, and hence the table, is order-dependent — see the
counterexample.) -/
theorem claim_C6_sort_order_independent (l1 l2 : List PriceObservation)
    (hperm : List.Perm l1 l2)
    (hnd : (l1.map (fun o => o.timestamp)).Nodup) :
    List.Sorted tsLe (sortObs l1) ∧ sortObs l1 = sortObs l2 ∧
    featureTable l1 = featureTable l2 := by
  have hs1 : List.Sorted tsLe (sortObs l1) := List.sorted_insertionSort tsLe l1
  have hs2 : List.Sorted tsLe (sortObs l2) := List.sorted_insertionSort tsLe l2
  have hp : List.Perm (sortObs l1) (sortObs l2) :=
    (List.perm_insertionSort tsLe l1).trans
      (hperm.trans (List.perm_insertionSort tsLe l2).symm)
  have hnd1 : ((sortObs l1).map (fun o => o.timestamp)).Nodup := by
    refine (List.Perm.nodup_iff ?_).mpr hnd
    exact (List.perm_insertionSort tsLe l1).map (fun o => o.timestamp)
  have heq : sortObs l1 = sortObs l2 :=
    sorted_perm_eq_of_nodup_keys hp hs1 hs2 hnd1
  refine ⟨hs1, heq, ?_⟩
  have hrow : featureRow l1 = featureRow l2 := by
    funext i
    unfold featureRow sortedPrices
    rw [heq]
  unfold featureTable
  rw [hrow, heq]

/-- Witness for C6 (amended) at two orderings of seven observations with
pairwise-distinct timestamps. -/
theorem claim_C6_sort_order_independent_witness :
    List.Sorted tsLe (sortObs
      ([⟨1, 10⟩, ⟨0, 20⟩, ⟨2, 30⟩, ⟨3, 40⟩, ⟨4, 50⟩, ⟨5, 60⟩, ⟨6, 70⟩] :
        List PriceObservation)) ∧
    sortObs
        ([⟨1, 10⟩, ⟨0, 20⟩, ⟨2, 30⟩, ⟨3, 40⟩, ⟨4, 50⟩, ⟨5, 60⟩, ⟨6, 70⟩] :
          List PriceObservation) =
      sortObs
        ([⟨0, 20⟩, ⟨1, 10⟩, ⟨2, 30⟩, ⟨3, 40⟩, ⟨4, 50⟩, ⟨5, 60⟩, ⟨6, 70⟩] :
          List PriceObservation) ∧
    featureTable
        ([⟨1, 10⟩, ⟨0, 20⟩, ⟨2, 30⟩, ⟨3, 40⟩, ⟨4, 50⟩, ⟨5, 60⟩, ⟨6, 70⟩] :
          List PriceObservation) =
      featureTable
        ([⟨0, 20⟩, ⟨1, 10⟩, ⟨2, 30⟩, ⟨3, 40⟩, ⟨4, 50⟩, ⟨5, 60⟩, ⟨6, 70⟩] :
          List PriceObservation) :=
  claim_C6_sort_order_independent
    [⟨1, 10⟩, ⟨0, 20⟩, ⟨2, 30⟩, ⟨3, 40⟩, ⟨4, 50⟩, ⟨5, 60⟩, ⟨6, 70⟩]
    [⟨0, 20⟩, ⟨1, 10⟩, ⟨2, 30⟩, ⟨3, 40⟩, ⟨4, 50⟩, ⟨5, 60⟩, ⟨6, 70⟩]
    (List.Perm.swap _ _ _) (by decide)

/-- Claim C2: for every observation sequence of length at least 7, the
feature table has exactly one row per observation, the target vector is the
sorted same-day price sequence (not shifted), and row `i` of the feature
matrix is exactly `[day_number = i, moving_avg_7 = mean(price[max(0,i-6)..i]),
price_delta (0 at i = 0), volatility_7 (0 when the window has < 2 points)]`,
in that column order, where the right-hand sides are the spec-side
definitions transcribed from the specification text. -/
theorem claim_C2_feature_builder (l : List PriceObservation) (h7 : 7 ≤ l.length) :
    ∃ X y df, PricePredictionModel.prepare_features l = .ok (X, y, df) ∧
      df.length = l.length ∧
      y = sortedPrices l ∧
      X.length = l.length ∧
      ∀ i, i < l.length →
        X.getD i [] =
          [(i : ℝ), (specMovingAvg (sortedPrices l) i : ℝ),
           (specPriceDelta (sortedPrices l) i : ℝ),
           specVolatility (sortedPrices l) i] := by
  refine ⟨featureMatrix l, targets l, featureTable l, ?_, length_featureTable l,
    targets_eq_sortedPrices l, ?_, ?_⟩
  · unfold PricePredictionModel.prepare_features
    rw [if_neg (by omega)]
  · simp [featureMatrix, length_featureTable]
  · intro i hi
    unfold featureMatrix featureTable
    rw [List.map_map,
      getD_map_range _ _ _ _ (by rw [length_sortObs]; exact hi)]
    simp only [Function.comp, featureRow, specMovingAvg, specPriceDelta,
      rollingStd_eq_specVolatility, window_eq_specWindow]

/-- Witness for C2 at a concrete 7-point history. -/
theorem claim_C2_feature_builder_witness :
    ∃ X y df,
      PricePredictionModel.prepare_features
        ([⟨0, 100⟩, ⟨1, 101⟩, ⟨2, 99⟩, ⟨3, 102⟩, ⟨4, 104⟩, ⟨5, 103⟩, ⟨6, 105⟩] :
          List PriceObservation) = .ok (X, y, df) ∧
      df.length = 7 ∧
      y = sortedPrices
        [⟨0, 100⟩, ⟨1, 101⟩, ⟨2, 99⟩, ⟨3, 102⟩, ⟨4, 104⟩, ⟨5, 103⟩, ⟨6, 105⟩] ∧
      X.length = 7 ∧
      ∀ i, i < 7 →
        X.getD i [] =
          [(i : ℝ),
           (specMovingAvg (sortedPrices
             [⟨0, 100⟩, ⟨1, 101⟩, ⟨2, 99⟩, ⟨3, 102⟩, ⟨4, 104⟩, ⟨5, 103⟩, ⟨6, 105⟩]) i : ℝ),
           (specPriceDelta (sortedPrices
             [⟨0, 100⟩, ⟨1, 101⟩, ⟨2, 99⟩, ⟨3, 102⟩, ⟨4, 104⟩, ⟨5, 103⟩, ⟨6, 105⟩]) i : ℝ),
           specVolatility (sortedPrices
             [⟨0, 100⟩, ⟨1, 101⟩, ⟨2, 99⟩, ⟨3, 102⟩, ⟨4, 104⟩, ⟨5, 103⟩, ⟨6, 105⟩]) i] :=
  claim_C2_feature_builder
    [⟨0, 100⟩, ⟨1, 101⟩, ⟨2, 99⟩, ⟨3, 102⟩, ⟨4, 104⟩, ⟨5, 103⟩, ⟨6, 105⟩]
    (by decide)

/-- Claim C9: for every sorted observation sequence of length at least 7
whose prices all equal a constant `P`, every row of the feature table has
`moving_avg_7 = P` and `volatility_7 = 0` (including the first row, whose
one-point window is treated as zero). -/
theorem claim_C9_constant_series (l : List PriceObservation) (P : ℚ)
    (_hs : List.Sorted tsLe l) (_h7 : 7 ≤ l.length)
    (hP : ∀ o ∈ l, o.price = P) :
    ∀ r ∈ featureTable l, r.ma_7 = P ∧ r.volatility = 0 := by
  have hs2 : sortedPrices l = List.replicate l.length P := by
    have hmem : ∀ q ∈ sortedPrices l, q = P := by
      intro q hq
      obtain ⟨o, ho, rfl⟩ := List.mem_map.mp hq
      exact hP o ((List.perm_insertionSort tsLe l).mem_iff.mp ho)
    have := List.eq_replicate_of_mem hmem
    rwa [length_sortedPrices] at this
  intro r hr
  obtain ⟨i, hi, rfl⟩ := List.mem_map.mp hr
  have hin : i < l.length := by
    have := List.mem_range.mp hi
    rwa [length_sortObs] at this
  have hwin : window (sortedPrices l) i =
      List.replicate (min (i + 1) l.length - (i + 1 - 7)) P := by
    rw [hs2]
    unfold window
    rw [List.take_replicate, List.drop_replicate]
  have hlen : 1 ≤ min (i + 1) l.length - (i + 1 - 7) := by omega
  constructor
  · show mean (window (sortedPrices l) i) = P
    rw [hwin]
    exact mean_replicate _ _ (by omega)
  · show rollingStd (sortedPrices l) i = 0
    unfold rollingStd
    rw [hwin]
    rcases lt_or_le (List.replicate (min (i + 1) l.length - (i + 1 - 7)) P).length 2
      with hsmall | hbig
    · rw [if_pos hsmall]
    · rw [if_neg (by omega), sampleVar_replicate]
      simp

/-- Witness for C9: seven observations at constant price 5. -/
theorem claim_C9_constant_series_witness :
    List.Sorted tsLe
      ([⟨0, 5⟩, ⟨1, 5⟩, ⟨2, 5⟩, ⟨3, 5⟩, ⟨4, 5⟩, ⟨5, 5⟩, ⟨6, 5⟩] :
        List PriceObservation) ∧
    ∀ r ∈ featureTable
        ([⟨0, 5⟩, ⟨1, 5⟩, ⟨2, 5⟩, ⟨3, 5⟩, ⟨4, 5⟩, ⟨5, 5⟩, ⟨6, 5⟩] :
          List PriceObservation),
      r.ma_7 = 5 ∧ r.volatility = 0 :=
  ⟨by decide,
   claim_C9_constant_series
     [⟨0, 5⟩, ⟨1, 5⟩, ⟨2, 5⟩, ⟨3, 5⟩, ⟨4, 5⟩, ⟨5, 5⟩, ⟨6, 5⟩] 5
     (by decide) (by decide) (by decide)⟩

/-- Claim C1: for every observation sequence with fewer than 7 elements,
`train` fails with `InsufficientDataError` and the model state is unchanged:
`is_trained` remains false and the stored metrics remain empty. -/
theorem claim_C1_train_insufficient_atomic (fitFn : PricePredictionModel.Fit)
    (m : PricePredictionModel) (l : List PriceObservation)
    (h7 : l.length < 7) (htr : m.is_trained = false) (hme : m.metrics = none) :
    PricePredictionModel.train fitFn m l = (m, .error .insufficientData) ∧
    (PricePredictionModel.train fitFn m l).1.is_trained = false ∧
    (PricePredictionModel.train fitFn m l).1.metrics = none := by
  have h : PricePredictionModel.prepare_features l = .error .insufficientData := by
    unfold PricePredictionModel.prepare_features
    rw [if_pos h7]
  refine ⟨?_, ?_, ?_⟩ <;>
    simp [PricePredictionModel.train, h, htr, hme]

/-- Witness for C1 at a concrete 3-element history and a fresh linear model. -/
theorem claim_C1_train_insufficient_atomic_witness :
    PricePredictionModel.train (fun _ _ _ => fun _ => 0)
        { model_type := "linear", algo := .linear, predictFn := fun _ => 0,
          is_trained := false, metrics := none }
        [⟨0, 100⟩, ⟨1, 101⟩, ⟨2, 99⟩] =
      ({ model_type := "linear", algo := .linear, predictFn := fun _ => 0,
         is_trained := false, metrics := none },
       .error .insufficientData) :=
  (claim_C1_train_insufficient_atomic (fun _ _ _ => fun _ => 0)
    { model_type := "linear", algo := .linear, predictFn := fun _ => 0,
      is_trained := false, metrics := none }
    [⟨0, 100⟩, ⟨1, 101⟩, ⟨2, 99⟩] (by decide) rfl rfl).1

/-- Claim C7: calling `predict_next_days` on a model that has not been
trained fails with `ModelNotTrainedError` and produces no forecast points,
for every observation sequence and count. -/
theorem claim_C7_forecast_untrained (m : PricePredictionModel)
    (hm : m.is_trained = false) (l : List PriceObservation) (days : ℤ) :
    PricePredictionModel.predict_next_days m l days = .error .modelNotTrained := by
  unfold PricePredictionModel.predict_next_days
  rw [hm]
  simp

/-- Witness for C7: a fresh linear model, an empty history, count 5. -/
theorem claim_C7_forecast_untrained_witness :
    PricePredictionModel.predict_next_days
      { model_type := "linear", algo := .linear, predictFn := fun _ => 0,
        is_trained := false, metrics := none }
      [] 5 = .error .modelNotTrained :=
  claim_C7_forecast_untrained
    { model_type := "linear", algo := .linear, predictFn := fun _ => 0,
      is_trained := false, metrics := none } rfl [] 5

/-- Claim C10: on a trained model with at least 7 observations,
`predict_next_days` with a non-positive count raises no error and returns
the empty list of forecast points (the loop `range(1, days + 1)` is empty). -/
theorem claim_C10_nonpositive_count_empty (m : PricePredictionModel)
    (hm : m.is_trained = true) (l : List PriceObservation)
    (h7 : 7 ≤ l.length) (days : ℤ) (hd : days ≤ 0) :
    PricePredictionModel.predict_next_days m l days = .ok [] := by
  unfold PricePredictionModel.predict_next_days
  rw [hm]
  have hprep : PricePredictionModel.prepare_features l =
      .ok (featureMatrix l, targets l, featureTable l) := by
    unfold PricePredictionModel.prepare_features
    rw [if_neg (by omega)]
  rw [Int.toNat_of_nonpos hd]
  simp [hprep, PricePredictionModel.forecastSteps]

/-- Witness for C10: a trained model, a 7-point history, count `-3`. -/
theorem claim_C10_nonpositive_count_empty_witness :
    PricePredictionModel.predict_next_days
      { model_type := "linear", algo := .linear, predictFn := fun _ => 0,
        is_trained := true, metrics := none }
      [⟨0, 100⟩, ⟨1, 101⟩, ⟨2, 99⟩, ⟨3, 102⟩, ⟨4, 104⟩, ⟨5, 103⟩, ⟨6, 105⟩]
      (-3) = .ok [] :=
  claim_C10_nonpositive_count_empty
    { model_type := "linear", algo := .linear, predictFn := fun _ => 0,
      is_trained := true, metrics := none } rfl
    [⟨0, 100⟩, ⟨1, 101⟩, ⟨2, 99⟩, ⟨3, 102⟩, ⟨4, 104⟩, ⟨5, 103⟩, ⟨6, 105⟩]
    (by decide) (-3) (by decide)

/-- Claim C8, counterexample: the literal selector string `"shallow-tree"`
is not accepted by the constructor; it falls through to the
unsupported-algorithm error, so the claim that `'shallow-tree'` is an
accepted selector is false on the code (the accepted string is `'tree'`). -/
theorem claim_C8_counterexample :
    PricePredictionModel.init "shallow-tree" =
      .error (.unsupportedAlgorithm "shallow-tree") := by
  rfl

/-- Claim C8, amended: a selector outside `{linear, tree}` fails with
`UnsupportedAlgorithmError`; `'linear'` selects the linear regressor and
`'tree'` selects the decision-tree regressor capped at depth 5 with fixed
random seed 42; fresh instances are untrained with empty metrics. -/
theorem claim_C8_algorithm_selection (s : String)
    (h1 : s ≠ "linear") (h2 : s ≠ "tree") :
    PricePredictionModel.init s = .error (.unsupportedAlgorithm s) ∧
    (∃ m, PricePredictionModel.init "linear" = .ok m ∧ m.algo = .linear ∧
      m.is_trained = false ∧ m.metrics = none) ∧
    (∃ m, PricePredictionModel.init "tree" = .ok m ∧ m.algo = .tree 5 42 ∧
      m.is_trained = false ∧ m.metrics = none) := by
  refine ⟨?_, ⟨_, rfl, rfl, rfl, rfl⟩, ⟨_, rfl, rfl, rfl, rfl⟩⟩
  unfold PricePredictionModel.init
  rw [if_neg h1, if_neg h2]

/-- Witness for C8 at the concrete rejected selector `"quadratic"`. -/
theorem claim_C8_algorithm_selection_witness :
    PricePredictionModel.init "quadratic" =
      .error (.unsupportedAlgorithm "quadratic") :=
  (claim_C8_algorithm_selection "quadratic" (by decide) (by decide)).1

/-- Claim C4: with more than 20 rows the feature/target pairs are split
chronologically with no shuffling — the train slice is a head of the list,
the evaluation slice the complementary tail, together re-forming the
original order — the train slice holding the first `n - ceil(n/5)` rows
(about 80%) and the test slice the last `ceil(n/5)` rows (about 20%,
characterised by `n ≤ 5·n_test < n + 5`); with 20 or fewer rows the model
is fitted and evaluated on the identical full set. The boundary is
strictly at more than 20. -/
theorem claim_C4_split_policy {α β : Type} (X : List α) (Y : List β) :
    (20 < X.length →
      PricePredictionModel.splitData X Y =
        (X.take (X.length - (X.length + 4) / 5),
         X.drop (X.length - (X.length + 4) / 5),
         Y.take (X.length - (X.length + 4) / 5),
         Y.drop (X.length - (X.length + 4) / 5)) ∧
      X.take (X.length - (X.length + 4) / 5) ++
        X.drop (X.length - (X.length + 4) / 5) = X ∧
      Y.take (X.length - (X.length + 4) / 5) ++
        Y.drop (X.length - (X.length + 4) / 5) = Y ∧
      0 < X.length - (X.length + 4) / 5 ∧
      X.length - (X.length + 4) / 5 < X.length ∧
      X.length ≤ 5 * ((X.length + 4) / 5) ∧
      5 * ((X.length + 4) / 5) < X.length + 5) ∧
    (X.length ≤ 20 →
      PricePredictionModel.splitData X Y = (X, X, Y, Y)) := by
  constructor
  · intro h
    refine ⟨?_, List.take_append_drop _ _, List.take_append_drop _ _,
      by omega, by omega, by omega, by omega⟩
    unfold PricePredictionModel.splitData
    rw [if_pos h]
  · intro h
    unfold PricePredictionModel.splitData
    rw [if_neg (by omega)]

/-- Witness for C4 at the boundary: 21 rows are split 16/5 chronologically,
20 rows use the identical full set on both sides. -/
theorem claim_C4_split_policy_witness :
    PricePredictionModel.splitData (List.range 21) (List.range 21) =
      ((List.range 21).take 16, (List.range 21).drop 16,
       (List.range 21).take 16, (List.range 21).drop 16) ∧
    PricePredictionModel.splitData (List.range 20) (List.range 20) =
      (List.range 20, List.range 20, List.range 20, List.range 20) := by
  constructor
  · have h := ((claim_C4_split_policy (List.range 21) (List.range 21)).1
      (by decide)).1
    have e : (List.range 21).length - ((List.range 21).length + 4) / 5 = 16 := by
      decide
    rw [e] at h
    exact h
  · exact (claim_C4_split_policy (List.range 20) (List.range 20)).2 (by decide)

end PriceGuard
